import Mathlib

/-!
Verification development for `gptdd`, a CLI tool that runs a test command,
sends the failure output and a target file to a chat-completion endpoint,
shows the suggested replacement as a character diff, and optionally applies
it, with an optional file-watch trigger that restarts the cycle and cancels
in-flight requests.

The embedding below models the control flow of `gptTestFix`, `setupWatcher`
and `entry` (src/unnamed/part_001) as pure functions from a per-cycle
environment oracle (subprocess outcomes, network response, abort timing,
user answers) to a trace of side effects plus a final outcome, and models
the character-level diff used for display.
-/

namespace Gptdd

/-! ### Character-level diff

The repository delegates diffing to the external jsdiff library
(`import { diffChars } from "diff"`), whose source is not part of this
repository. Modelled from the spec: a character-level diff whose segments
are classified as common, added, or removed, such that the common and
removed segments in order reconstruct the original string and the common
and added segments in order reconstruct the replacement. -/

/-- Classification of one diff segment: unchanged, present only in the new
string, or present only in the old string. -/
inductive PartKind where
  | common
  | added
  | removed
deriving DecidableEq, Repr

/-- One segment of a character diff: a kind together with the run of
characters it covers. -/
structure DiffPart where
  kind : PartKind
  value : List Char
deriving DecidableEq, Repr

/-- Prepend one character of kind `k` onto a diff, coalescing it into the
head segment when that segment has the same kind (jsdiff reports maximal
runs, not single characters). -/
def consPart (k : PartKind) (c : Char) : List DiffPart → List DiffPart
  | [] => [⟨k, [c]⟩]
  | p :: rest => if p.kind = k then ⟨k, c :: p.value⟩ :: rest else ⟨k, [c]⟩ :: p :: rest

/-- Total number of characters a diff classifies as common. -/
def commonLen : List DiffPart → Nat
  | [] => 0
  | p :: rest => (if p.kind = .common then p.value.length else 0) + commonLen rest

/-- Modelled from the spec: the character-level diff computed by the jsdiff
library function `diffChars` (external dependency, not under src/). Equal
leading characters are classified common; otherwise the branch keeping the
larger number of common characters is chosen, the discarded character being
reported as removed (from the old string) or added (from the new one). -/
def diffCharsAux : List Char → List Char → List DiffPart
  | [], [] => []
  | [], y :: ys => consPart .added y (diffCharsAux [] ys)
  | x :: xs, [] => consPart .removed x (diffCharsAux xs [])
  | x :: xs, y :: ys =>
    if x = y then consPart .common x (diffCharsAux xs ys)
    else
      let dRem := diffCharsAux xs (y :: ys)
      let dAdd := diffCharsAux (x :: xs) ys
      if commonLen dRem < commonLen dAdd then consPart .added y dAdd
      else consPart .removed x dRem
termination_by xs ys => xs.length + ys.length
decreasing_by all_goals simp_arith

/-- `diffChars(file, fileChanges)` as called at src/src/index.mjs line 127. -/
def diffChars (oldStr newStr : String) : List DiffPart :=
  diffCharsAux oldStr.toList newStr.toList

/-- The characters a segment contributes to the original string: removed and
common segments contribute their run, added segments contribute nothing. -/
def oldOf (p : DiffPart) : List Char :=
  if p.kind = .added then [] else p.value

/-- The characters a segment contributes to the replacement string: added and
common segments contribute their run, removed segments contribute nothing. -/
def newOf (p : DiffPart) : List Char :=
  if p.kind = .removed then [] else p.value

/-- Concatenation, in order, of the common and removed segments of a diff. -/
def reconOld (d : List DiffPart) : List Char :=
  d.foldr (fun p acc => oldOf p ++ acc) []

/-- Concatenation, in order, of the common and added segments of a diff. -/
def reconNew (d : List DiffPart) : List Char :=
  d.foldr (fun p acc => newOf p ++ acc) []

/-! ### JavaScript value truthiness

`gptTestFix` guards on `!fileExists` where `fileExists` is the awaited
result of `promisify(exec)`, i.e. a `{ stdout, stderr }` object. JavaScript
truthiness is modelled faithfully: objects are always truthy. -/

/-- A JavaScript runtime value, as far as truthiness is concerned. The
`object` constructor models the `{ stdout, stderr }` result object that a
successful `promisify(exec)` call resolves with. -/
inductive JsValue where
  | undef
  | nullv
  | boolean (b : Bool)
  | number (n : Int)
  | str (s : String)
  | object (stdout stderr : String)
deriving DecidableEq, Repr

/-- JavaScript truthiness: `undefined`, `null`, `false`, `0` and `""` are
falsy; every object is truthy. -/
def jsTruthy : JsValue → Bool
  | .undef => false
  | .nullv => false
  | .boolean b => b
  | .number n => !(n == 0)
  | .str s => !(s == "")
  | .object _ _ => true

/-- Does `pat` occur as a leading run of `cs`? -/
def charsStartWith : List Char → List Char → Bool
  | [], _ => true
  | _ :: _, [] => false
  | p :: ps, c :: cs => p == c && charsStartWith ps cs

/-- Does `pat` occur anywhere inside the haystack? -/
def charsIncl (pat : List Char) : List Char → Bool
  | [] => charsStartWith pat []
  | c :: rest => charsStartWith pat (c :: rest) || charsIncl pat rest

/-- JavaScript `String.prototype.includes`, used by the source at
`stderr.includes("command not found")`. -/
def jsIncludes (s pat : String) : Bool :=
  charsIncl pat.toList s.toList

/-! ### Run configuration and per-cycle environment -/

/-- The CLI options received by `gptTestFix`. A missing flag is modelled as
the empty string: both `undefined` and `""` are falsy in JavaScript, and the
source only ever tests the fields with `!`. `watchFiles` defaults to `""`
exactly as in `const { ..., watchFiles = "" } = entryOptions`. -/
structure EntryOptions where
  testToRun : String
  fileToFix : String
  apiKey : String
  watchFiles : String := ""
deriving DecidableEq, Repr

/-- Outcome of `await asyncExec(testToRun)`: either it resolves (exit status
zero), or it rejects with a value `e` that the catch block inspects. -/
inductive TestOutcome where
  /-- the subprocess exits with status zero -/
  | pass
  /-- rejection with a falsy value: `if (!e) throw new Error("Unknown Error")` -/
  | failFalsy
  /-- rejection with a non-object primitive: `if (typeof e !== "object") throw e` -/
  | failPrimitive (v : String)
  /-- rejection with an object lacking `stderr`: logged, then `process.exit(1)` -/
  | failNoStderr (msg : String)
  /-- rejection with an exec error object carrying captured `stderr` -/
  | fail (stderr : String)
deriving DecidableEq, Repr

/-- Shape of the completion response after `res.json()`. -/
inductive NetResult where
  /-- `res.json()` rejects (body is not JSON) -/
  | jsonError
  /-- `response.choices[0]` is missing: reading `.message` throws a TypeError -/
  | noChoice
  /-- `message` exists but `content` is `undefined`: `.trim()` throws a TypeError -/
  | noContent
  /-- `message` is `undefined`: optional chaining yields `undefined`, so `?? ""` applies -/
  | noMessage
  /-- `message.content` is the string `c` -/
  | content (c : String)
deriving DecidableEq, Repr

/-- When, relative to this cycle's completion request, a later file-change
event invalidates (aborts) this cycle's Cancellation Token. The token's
signal is passed only to `fetch` (the `signal` field of the request at
line 133), so it is observed at no other point of the cycle. -/
inductive AbortPoint where
  /-- the token is never invalidated -/
  | never
  /-- invalidated before the fetch settles: the fetch rejects with `AbortError` -/
  | duringFetch
  /-- invalidated after the fetch has already resolved (e.g. while the cycle
  waits at a confirmation prompt): nothing in the remaining cycle reads the
  signal -/
  | afterFetch
deriving DecidableEq, Repr

/-- The oracle for one cycle: everything the outside world answers during a
single invocation of `gptTestFix`. -/
structure CycleEnv where
  /-- `process.cwd()` -/
  cwd : String
  /-- whether `ls <resolved path>` exits zero, i.e. the target file exists -/
  lsOk : Bool
  /-- contents returned by `readFileSync(fileToFixPath, "utf-8")` -/
  fileContent : String
  /-- result of running the test command -/
  test : TestOutcome
  /-- when (if ever) a later change event invalidates this cycle's token -/
  abort : AbortPoint
  /-- shape of the completion response -/
  net : NetResult
  /-- the user's answer to "Apply the suggested changes?" -/
  applyChanges : Bool
  /-- the user's answer to "Run the tests again?" -/
  runTestsAgain : Bool
deriving DecidableEq, Repr

/-- Errors that can propagate out of a cycle as a rejected promise. -/
inductive Err where
  /-- `new Error("file does not exist")` at line 67 -/
  | fileDoesNotExist
  /-- rejection of the `ls` existence-check subprocess -/
  | lsError (cmd : String)
  /-- the rethrown exec error whose stderr contains "command not found" -/
  | testExecError (stderr : String)
  /-- `new Error("Unknown Error")` for a falsy rejection value -/
  | unknownError
  /-- a rethrown non-object rejection value -/
  | primitive (v : String)
  /-- TypeError raised while reading the completion response shape -/
  | typeError
  /-- rejection of `res.json()` -/
  | jsonError
  /-- rejection of the aborted fetch; its `name` is `"AbortError"` -/
  | abortError
deriving DecidableEq, Repr

/-- The `error.name !== "AbortError"` test of the change handler. -/
def Err.isAbortError : Err → Bool
  | .abortError => true
  | _ => false

/-- The `error.message` used by the catch handlers when logging. -/
def errMessage : Err → String
  | .fileDoesNotExist => "file does not exist"
  | .lsError cmd => "Command failed: " ++ cmd
  | .testExecError stderr => "Command failed: " ++ stderr
  | .unknownError => "Unknown Error"
  | .primitive v => v
  | .typeError => "TypeError"
  | .jsonError => "invalid json response body"
  | .abortError => "The user aborted a request."

/-! ### Effects and outcomes of one cycle -/

/-- Observable side effects of one cycle, in program order. -/
inductive Effect where
  /-- `console.error` of a message (also used by `errorAndExit`) -/
  | logError (msg : String)
  /-- the `ls <path>` existence-check subprocess -/
  | execLs (cmd : String)
  /-- `readFileSync` of the target file -/
  | readTarget (path : String)
  /-- the truncated file preview -/
  | logPreview
  /-- the test command subprocess -/
  | execTest (cmd : String)
  /-- `console.log("All tests passed!")` -/
  | logSuccess
  /-- display of the captured test stderr -/
  | logStderr (s : String)
  /-- the HTTPS POST to the completion endpoint -/
  | netCall (apiKey sysMsg userMsg : String)
  /-- the "Apply the suggested changes?" prompt -/
  | promptApply
  /-- `writeFileSync(fileToFixPath, fileChanges)` -/
  | writeTarget (path content : String)
  /-- the "Run the tests again?" prompt -/
  | promptRerun
  /-- `setupWatcher(watchFiles, ...)` -/
  | watchStart (glob : String)
deriving DecidableEq, Repr

/-- How one invocation of `gptTestFix` ends. -/
inductive Outcome where
  /-- `process.exit(code)` -/
  | exited (code : Nat)
  /-- the returned promise rejects with `e` -/
  | thrown (e : Err)
  /-- `return gptTestFix(...)`: a fresh cycle starts with the same options -/
  | recurse
  /-- the cycle completed and handed control to the watcher -/
  | watching
deriving DecidableEq, Repr

def Effect.isNetCall : Effect → Bool
  | .netCall .. => true
  | _ => false

def Effect.isWrite : Effect → Bool
  | .writeTarget .. => true
  | _ => false

def Effect.isRead : Effect → Bool
  | .readTarget _ => true
  | _ => false

def Effect.isSubproc : Effect → Bool
  | .execLs _ => true
  | .execTest _ => true
  | _ => false

def Effect.isLogError : Effect → Bool
  | .logError _ => true
  | _ => false

/-- The target-file writes of a trace, in order, as (path, content) pairs. -/
def writesOf : List Effect → List (String × String)
  | [] => []
  | .writeTarget p c :: rest => (p, c) :: writesOf rest
  | _ :: rest => writesOf rest

/-- Drop the leading whitespace characters of a character list. -/
def dropLeadingWs : List Char → List Char
  | [] => []
  | c :: cs => if c.isWhitespace then dropLeadingWs cs else c :: cs

/-- JavaScript `String.prototype.trim`, as called on the assistant message
content at line 138: strips leading and trailing whitespace. -/
def jsTrim (s : String) : String :=
  ⟨(dropLeadingWs (dropLeadingWs s.data).reverse).reverse⟩

/-- `join(process.cwd(), fileToFix)`; path normalization is irrelevant here,
the resolved path is treated as an abstract string. -/
def joinPath (cwd p : String) : String := cwd ++ "/" ++ p

/-- The fixed system instruction of the completion request. -/
def systemPrompt : String :=
  "You are a software developer. Given a file and a failing test, you return a new file which fixes the test. You return updated file code only with no explanation. Do not wrap file code in markdown or code blocks. Always return a file string. If you cannot fix the test, return the original file code."

/-- The user message of the completion request. -/
def userPrompt (stderr file : String) : String :=
  "Failing Test:\n" ++ stderr ++ "\n\nFile:\n" ++ file

/-- Step 10 of the cycle: `setupWatcher` when `watchFiles` was provided,
otherwise `process.exit(0)`. -/
def finishCycle (opts : EntryOptions) (effs : List Effect) : List Effect × Outcome :=
  if opts.watchFiles = "" then (effs, .exited 0)
  else (effs ++ [.watchStart opts.watchFiles], .watching)

/-- Steps 8 and 9 of the cycle: the apply prompt, the conditional
`writeFileSync`, the rerun prompt, and the conditional recursion. -/
def applyAndRerun (opts : EntryOptions) (env : CycleEnv) (path : String)
    (effs : List Effect) (fileChanges : String) : List Effect × Outcome :=
  let effs1 := effs ++ [Effect.promptApply]
  let effs2 := if env.applyChanges then effs1 ++ [Effect.writeTarget path fileChanges] else effs1
  let effs3 := effs2 ++ [Effect.promptRerun]
  if env.runTestsAgain then (effs3, .recurse) else finishCycle opts effs3

/-- Steps 5-8 of the cycle: the completion request (which is the single
point observing the cancellation signal), the response-shape handling, and
the hand-off to the prompts. `effs` is the trace accumulated so far. -/
def fetchPhase (opts : EntryOptions) (env : CycleEnv) (path : String)
    (effs : List Effect) (stderr file : String) : List Effect × Outcome :=
  let effs1 := effs ++ [Effect.netCall opts.apiKey systemPrompt (userPrompt stderr file)]
  if env.abort = .duringFetch then
    -- the token was invalidated while the request was pending: the fetch
    -- rejects with AbortError and nothing further in the cycle runs
    (effs1, .thrown .abortError)
  else
    match env.net with
    | .jsonError => (effs1, .thrown .jsonError)
    | .noChoice => (effs1, .thrown .typeError)
    | .noContent => (effs1, .thrown .typeError)
    | .noMessage => applyAndRerun opts env path effs1 ""
    | .content c =>
      -- `response.choices[0].message?.content.trim() ?? ""`
      applyAndRerun opts env path effs1 (jsTrim c)

/-- Step 4 of the cycle: run the test command and analyze the rejection
value in the catch block. -/
def testPhase (opts : EntryOptions) (env : CycleEnv) (path file : String)
    (pre : List Effect) : List Effect × Outcome :=
  match env.test with
  | .pass =>
    finishCycle opts (pre ++ [.execTest opts.testToRun, .logSuccess])
  | .failFalsy =>
    (pre ++ [.execTest opts.testToRun], .thrown .unknownError)
  | .failPrimitive v =>
    (pre ++ [.execTest opts.testToRun], .thrown (.primitive v))
  | .failNoStderr msg =>
    (pre ++ [.execTest opts.testToRun, .logError msg], .exited 1)
  | .fail stderr =>
    if jsIncludes stderr "command not found" then
      (pre ++ [.execTest opts.testToRun], .thrown (.testExecError stderr))
    else
      fetchPhase opts env path
        (pre ++ [.execTest opts.testToRun, .logStderr stderr]) stderr file

/-- One invocation of `gptTestFix` (src/unnamed/part_001 lines 40-176),
returning the trace of side effects and the outcome. The asynchronous
watch-glob existence check of lines 49-62 registers a `ready` callback and
does not block or gate the cycle, so it contributes nothing to the
synchronous trace modelled here. -/
def runCycle (opts : EntryOptions) (env : CycleEnv) : List Effect × Outcome :=
  -- step 1: required options, via errorAndExit
  if opts.testToRun = "" then ([.logError "--testToRun is required"], .exited 1)
  else if opts.fileToFix = "" then ([.logError "--fileToFix is required"], .exited 1)
  else if opts.apiKey = "" then ([.logError "--apiKey is required"], .exited 1)
  else
    -- step 3: existence check by `await asyncExec("ls " + path)`
    let path := joinPath env.cwd opts.fileToFix
    let lsCmd := "ls " ++ path
    if env.lsOk = false then
      -- `ls` exits non-zero: the awaited promise rejects
      ([.execLs lsCmd], .thrown (.lsError lsCmd))
    else
      -- `ls` exits zero: the promise resolves with a `{ stdout, stderr }` object
      let fileExists : JsValue := .object path ""
      if jsTruthy fileExists = false then
        ([.execLs lsCmd], .thrown .fileDoesNotExist)
      else
        testPhase opts env path env.fileContent
          [.execLs lsCmd, .readTarget path, .logPreview]

/-- The `entry` wrapper (lines 234-245): any rejection of the cycle is
logged as `Error: <message>` and the process exits with code 1. -/
def entryRun (opts : EntryOptions) (env : CycleEnv) : List Effect × Outcome :=
  match runCycle opts env with
  | (effs, .thrown e) => (effs ++ [.logError ("Error: " ++ errMessage e)], .exited 1)
  | r => r

/-- The watcher's change handler (lines 204-220): abort the previous token,
create a fresh one, run a cycle with it, and swallow an `AbortError`
silently — any other rejection is logged but the process keeps watching. -/
def onChange (opts : EntryOptions) (env : CycleEnv) : List Effect × Outcome :=
  match runCycle opts env with
  | (effs, .thrown e) =>
    if e.isAbortError then (effs, .watching)
    else (effs ++ [.logError ("Error: " ++ errMessage e)], .watching)
  | r => r

/-! ### Properties of the diff -/

lemma reconOld_nil : reconOld [] = [] := rfl

lemma reconOld_cons (p : DiffPart) (d : List DiffPart) :
    reconOld (p :: d) = oldOf p ++ reconOld d := rfl

lemma reconNew_cons (p : DiffPart) (d : List DiffPart) :
    reconNew (p :: d) = newOf p ++ reconNew d := rfl

lemma oldOf_consChar (k : PartKind) (c : Char) (v : List Char) :
    oldOf ⟨k, c :: v⟩ = oldOf ⟨k, [c]⟩ ++ oldOf ⟨k, v⟩ := by
  unfold oldOf
  by_cases hk : k = PartKind.added <;> simp [hk]

lemma newOf_consChar (k : PartKind) (c : Char) (v : List Char) :
    newOf ⟨k, c :: v⟩ = newOf ⟨k, [c]⟩ ++ newOf ⟨k, v⟩ := by
  unfold newOf
  by_cases hk : k = PartKind.removed <;> simp [hk]

lemma reconOld_consPart (k : PartKind) (c : Char) (d : List DiffPart) :
    reconOld (consPart k c d) = oldOf ⟨k, [c]⟩ ++ reconOld d := by
  cases d with
  | nil => simp [consPart, reconOld_cons, reconOld_nil]
  | cons p rest =>
    by_cases h : p.kind = k
    · simp only [consPart, if_pos h, reconOld_cons]
      have hv : oldOf ⟨k, c :: p.value⟩ = oldOf ⟨k, [c]⟩ ++ oldOf ⟨k, p.value⟩ :=
        oldOf_consChar k c p.value
      have hp : oldOf ⟨k, p.value⟩ = oldOf p := by
        cases p; simp_all [oldOf]
      rw [hv, hp, List.append_assoc]
    · simp [consPart, if_neg h, reconOld_cons]

lemma reconNew_consPart (k : PartKind) (c : Char) (d : List DiffPart) :
    reconNew (consPart k c d) = newOf ⟨k, [c]⟩ ++ reconNew d := by
  cases d with
  | nil => simp [consPart, reconNew_cons, reconNew]
  | cons p rest =>
    by_cases h : p.kind = k
    · simp only [consPart, if_pos h, reconNew_cons]
      have hv : newOf ⟨k, c :: p.value⟩ = newOf ⟨k, [c]⟩ ++ newOf ⟨k, p.value⟩ :=
        newOf_consChar k c p.value
      have hp : newOf ⟨k, p.value⟩ = newOf p := by
        cases p; simp_all [newOf]
      rw [hv, hp, List.append_assoc]
    · simp [consPart, if_neg h, reconNew_cons]

/-- The common and removed segments of the computed diff reconstruct the
original character list. -/
lemma reconOld_diffCharsAux (xs ys : List Char) :
    reconOld (diffCharsAux xs ys) = xs := by
  induction xs, ys using diffCharsAux.induct with
  | case1 => simp [diffCharsAux, reconOld_nil]
  | case2 y ys ih =>
    rw [diffCharsAux, reconOld_consPart]
    simpa [oldOf] using ih
  | case3 x xs ih =>
    rw [diffCharsAux, reconOld_consPart]
    simpa [oldOf] using ih
  | case4 xs y ys ih =>
    rw [diffCharsAux, if_pos rfl, reconOld_consPart]
    simpa [oldOf] using ih
  | case5 x xs y ys hxy dR dA hlt ihRem ihAdd =>
    rw [diffCharsAux, if_neg hxy]
    simp only [if_pos hlt, reconOld_consPart]
    simpa [oldOf] using ihAdd
  | case6 x xs y ys hxy dR dA hnlt ihRem ihAdd =>
    rw [diffCharsAux, if_neg hxy]
    simp only [if_neg hnlt, reconOld_consPart]
    simpa [oldOf] using ihRem

/-- The common and added segments of the computed diff reconstruct the
replacement character list. -/
lemma reconNew_diffCharsAux (xs ys : List Char) :
    reconNew (diffCharsAux xs ys) = ys := by
  induction xs, ys using diffCharsAux.induct with
  | case1 => simp [diffCharsAux, reconNew]
  | case2 y ys ih =>
    rw [diffCharsAux, reconNew_consPart]
    simpa [newOf] using ih
  | case3 x xs ih =>
    rw [diffCharsAux, reconNew_consPart]
    simpa [newOf] using ih
  | case4 xs y ys ih =>
    rw [diffCharsAux, if_pos rfl, reconNew_consPart]
    simpa [newOf] using ih
  | case5 x xs y ys hxy dR dA hlt ihRem ihAdd =>
    rw [diffCharsAux, if_neg hxy]
    simp only [if_pos hlt, reconNew_consPart]
    simpa [newOf] using ihAdd
  | case6 x xs y ys hxy dR dA hnlt ihRem ihAdd =>
    rw [diffCharsAux, if_neg hxy]
    simp only [if_neg hnlt, reconNew_consPart]
    simpa [newOf] using ihRem

lemma consPart_value_ne_nil (k : PartKind) (c : Char) (d : List DiffPart)
    (hd : ∀ p ∈ d, p.value ≠ []) : ∀ p ∈ consPart k c d, p.value ≠ [] := by
  cases d with
  | nil => simp [consPart]
  | cons q rest =>
    by_cases h : q.kind = k
    · intro p hp
      simp only [consPart, if_pos h] at hp
      rcases List.mem_cons.mp hp with rfl | h2
      · simp
      · exact hd p (List.mem_cons_of_mem q h2)
    · intro p hp
      simp only [consPart, if_neg h] at hp
      rcases List.mem_cons.mp hp with rfl | h2
      · simp
      · exact hd p h2

/-- Every segment of the computed diff covers a nonempty run of
characters. -/
lemma diffCharsAux_value_ne_nil (xs ys : List Char) :
    ∀ p ∈ diffCharsAux xs ys, p.value ≠ [] := by
  induction xs, ys using diffCharsAux.induct with
  | case1 => simp [diffCharsAux]
  | case2 y ys ih => rw [diffCharsAux]; exact consPart_value_ne_nil _ _ _ ih
  | case3 x xs ih => rw [diffCharsAux]; exact consPart_value_ne_nil _ _ _ ih
  | case4 xs y ys ih =>
    rw [diffCharsAux, if_pos rfl]; exact consPart_value_ne_nil _ _ _ ih
  | case5 x xs y ys hxy dR dA hlt ihRem ihAdd =>
    rw [diffCharsAux, if_neg hxy]
    simp only [if_pos hlt]
    exact consPart_value_ne_nil _ _ _ ihAdd
  | case6 x xs y ys hxy dR dA hnlt ihRem ihAdd =>
    rw [diffCharsAux, if_neg hxy]
    simp only [if_neg hnlt]
    exact consPart_value_ne_nil _ _ _ ihRem

/-- On identical inputs the diff is a single common segment (or empty):
identical character runs are classified common, never added or removed. -/
lemma diffCharsAux_self (xs : List Char) :
    diffCharsAux xs xs = if xs = [] then [] else [⟨.common, xs⟩] := by
  induction xs with
  | nil => simp [diffCharsAux]
  | cons x xs ih =>
    rw [diffCharsAux, if_pos rfl, ih]
    by_cases h : xs = []
    · simp [h, consPart]
    · simp [h, consPart]

/-! ### Trace lemmas for the cycle phases -/

lemma writesOf_append (a b : List Effect) :
    writesOf (a ++ b) = writesOf a ++ writesOf b := by
  induction a with
  | nil => simp [writesOf]
  | cons e rest ih => cases e <;> simp [writesOf, ih]

lemma writesOf_finishCycle (opts : EntryOptions) (effs : List Effect) :
    writesOf (finishCycle opts effs).1 = writesOf effs := by
  unfold finishCycle
  split_ifs <;> simp [writesOf_append, writesOf]

lemma writesOf_applyAndRerun (opts : EntryOptions) (env : CycleEnv)
    (path : String) (effs : List Effect) (c : String) :
    writesOf (applyAndRerun opts env path effs c).1 =
      writesOf effs ++ (if env.applyChanges then [(path, c)] else []) := by
  unfold applyAndRerun
  split_ifs with h1 h2 h2 <;>
    simp_all [writesOf_finishCycle, writesOf_append, writesOf]

lemma writesOf_fetchPhase_declined (opts : EntryOptions) (env : CycleEnv)
    (path : String) (effs : List Effect) (stderr file : String)
    (h : env.applyChanges = false) :
    writesOf (fetchPhase opts env path effs stderr file).1 = writesOf effs := by
  unfold fetchPhase
  split_ifs <;> try (cases env.net) <;>
    simp_all [writesOf_applyAndRerun, writesOf_append, writesOf]

lemma writesOf_fetchPhase_aborted (opts : EntryOptions) (env : CycleEnv)
    (path : String) (effs : List Effect) (stderr file : String)
    (h : env.abort = .duringFetch) :
    writesOf (fetchPhase opts env path effs stderr file).1 = writesOf effs := by
  unfold fetchPhase
  simp [h, writesOf_append, writesOf]

lemma writesOf_fetchPhase_content (opts : EntryOptions) (env : CycleEnv)
    (path : String) (effs : List Effect) (stderr file c : String)
    (h1 : env.abort ≠ .duringFetch) (h2 : env.net = .content c)
    (h3 : env.applyChanges = true) :
    writesOf (fetchPhase opts env path effs stderr file).1 =
      writesOf effs ++ [(path, jsTrim c)] := by
  unfold fetchPhase
  simp [h1, h2, h3, writesOf_applyAndRerun, writesOf_append, writesOf]

lemma writesOf_testPhase_declined (opts : EntryOptions) (env : CycleEnv)
    (path file : String) (pre : List Effect)
    (h : env.applyChanges = false) :
    writesOf (testPhase opts env path file pre).1 = writesOf pre := by
  unfold testPhase
  cases env.test <;>
    simp_all [writesOf_finishCycle, writesOf_fetchPhase_declined,
      writesOf_append, writesOf]
  split_ifs <;>
    simp_all [writesOf_fetchPhase_declined, writesOf_append, writesOf]

lemma writesOf_testPhase_aborted (opts : EntryOptions) (env : CycleEnv)
    (path file : String) (pre : List Effect)
    (h : env.abort = .duringFetch) :
    writesOf (testPhase opts env path file pre).1 = writesOf pre := by
  unfold testPhase
  cases env.test <;>
    simp_all [writesOf_finishCycle, writesOf_fetchPhase_aborted,
      writesOf_append, writesOf]
  split_ifs <;>
    simp_all [writesOf_fetchPhase_aborted, writesOf_append, writesOf]

lemma finishCycle_snd_ne_thrown (opts : EntryOptions) (effs : List Effect) (e : Err) :
    (finishCycle opts effs).2 ≠ .thrown e := by
  unfold finishCycle
  split_ifs <;> simp

lemma applyAndRerun_snd_ne_thrown (opts : EntryOptions) (env : CycleEnv)
    (path : String) (effs : List Effect) (c : String) (e : Err) :
    (applyAndRerun opts env path effs c).2 ≠ .thrown e := by
  unfold applyAndRerun
  split_ifs <;> first
    | exact finishCycle_snd_ne_thrown _ _ _
    | simp

lemma fetchPhase_snd_ne_fdne (opts : EntryOptions) (env : CycleEnv)
    (path : String) (effs : List Effect) (stderr file : String) :
    (fetchPhase opts env path effs stderr file).2 ≠ .thrown .fileDoesNotExist := by
  unfold fetchPhase
  split_ifs
  · simp
  · cases env.net <;> first
      | exact applyAndRerun_snd_ne_thrown _ _ _ _ _ _
      | simp

lemma testPhase_snd_ne_fdne (opts : EntryOptions) (env : CycleEnv)
    (path file : String) (pre : List Effect) :
    (testPhase opts env path file pre).2 ≠ .thrown .fileDoesNotExist := by
  unfold testPhase
  cases env.test with
  | pass => exact finishCycle_snd_ne_thrown _ _ _
  | failFalsy => simp
  | failPrimitive v => simp
  | failNoStderr msg => simp
  | fail stderr =>
    dsimp only
    split_ifs with hinc
    · simp
    · exact fetchPhase_snd_ne_fdne _ _ _ _ _ _

/-- With all required flags present and the `ls` existence check succeeding,
the cycle reduces to the test phase with the fixed prefix trace. -/
lemma runCycle_eq_testPhase (opts : EntryOptions) (env : CycleEnv)
    (h1 : opts.testToRun ≠ "") (h2 : opts.fileToFix ≠ "") (h3 : opts.apiKey ≠ "")
    (h4 : env.lsOk = true) :
    runCycle opts env =
      testPhase opts env (joinPath env.cwd opts.fileToFix) env.fileContent
        [.execLs ("ls " ++ joinPath env.cwd opts.fileToFix),
         .readTarget (joinPath env.cwd opts.fileToFix), .logPreview] := by
  unfold runCycle
  rw [if_neg h1, if_neg h2, if_neg h3]
  rw [if_neg (by simp [h4])]
  rw [if_neg (by simp [jsTruthy])]

/-! ### The claims -/

/-- Claim C1, counterexample to the claim as stated: the assistant message
content is `" bar "`, the user accepts, and the file is overwritten with
`"bar"` — the trimmed content, not the verbatim content. -/
theorem write_not_verbatim_on_untrimmed_content :
    (CycleEnv.mk "/home" true "foo" (.fail "boom") .never (.content " bar ") true false).net
      = .content " bar " ∧
    writesOf (runCycle (EntryOptions.mk "vitest run" "a.txt" "sk-1" "")
      (CycleEnv.mk "/home" true "foo" (.fail "boom") .never (.content " bar ") true false)).1
      = [("/home/a.txt", "bar")] ∧
    ("bar" : String) ≠ " bar " := by
  refine ⟨rfl, by decide, by decide⟩

/-- Claim C1 (amended): for every cycle in which the user accepts the
proposed change, the target file is overwritten with exactly the proposed
replacement text — no merging, no partial application — where the
replacement text is the assistant message content with leading and trailing
whitespace trimmed (`content.trim()`), not the verbatim content. -/
theorem accepted_fix_writes_exact_trimmed_content
    (opts : EntryOptions) (env : CycleEnv) (s c : String)
    (h1 : opts.testToRun ≠ "") (h2 : opts.fileToFix ≠ "") (h3 : opts.apiKey ≠ "")
    (h4 : env.lsOk = true) (h5 : env.test = .fail s)
    (h6 : jsIncludes s "command not found" = false)
    (h7 : env.abort ≠ .duringFetch) (h8 : env.net = .content c)
    (h9 : env.applyChanges = true) :
    writesOf (runCycle opts env).1 = [(joinPath env.cwd opts.fileToFix, jsTrim c)] := by
  rw [runCycle_eq_testPhase opts env h1 h2 h3 h4]
  unfold testPhase
  rw [h5]
  dsimp only
  rw [if_neg (by simp [h6])]
  rw [writesOf_fetchPhase_content opts env _ _ s env.fileContent c h7 h8 h9]
  simp [writesOf]

/-- Witness for the C1 theorem at a concrete accepted cycle. -/
theorem accepted_fix_writes_exact_trimmed_content_witness :
    writesOf (runCycle (EntryOptions.mk "vitest run" "b.txt" "sk-2" "")
      (CycleEnv.mk "/repo" true "foo" (.fail "assertion failed") .never
        (.content " fixed\n") true false)).1
      = [(joinPath "/repo" "b.txt", jsTrim " fixed\n")] :=
  accepted_fix_writes_exact_trimmed_content _ _ "assertion failed" " fixed\n"
    (by decide) (by decide) (by decide) rfl rfl (by decide) (by decide) rfl rfl

/-- Claim C2: for every cycle in which the user declines to apply the
proposed change, no write to the target file occurs in that cycle, so the
target file's contents are byte-identical before and after the cycle. -/
theorem declined_fix_never_writes (opts : EntryOptions) (env : CycleEnv)
    (h : env.applyChanges = false) :
    writesOf (runCycle opts env).1 = [] := by
  unfold runCycle
  split_ifs <;>
    simp_all [writesOf_testPhase_declined, writesOf, jsTruthy]

/-- Witness for the C2 theorem at a concrete declined cycle. -/
theorem declined_fix_never_writes_witness :
    writesOf (runCycle (EntryOptions.mk "jest" "c.txt" "sk-3" "")
      (CycleEnv.mk "/repo" true "foo" (.fail "boom") .never (.content "bar")
        false false)).1 = [] :=
  declined_fix_never_writes _ _ rfl

/-- Claim C3, counterexample to the claim as stated: a cycle whose token has
been invalidated (abort after the completion response resolved, e.g. while
the cycle waits at the confirmation prompt) still writes its Fix Proposal,
because only the `fetch` call observes the cancellation signal. -/
theorem stale_write_after_late_cancellation :
    (CycleEnv.mk "/home" true "foo" (.fail "boom") .afterFetch (.content "bar") true false).abort
      ≠ .never ∧
    writesOf (runCycle (EntryOptions.mk "vitest run" "a.txt" "sk-1" "src")
      (CycleEnv.mk "/home" true "foo" (.fail "boom") .afterFetch (.content "bar") true false)).1
      = [("/home/a.txt", "bar")] := by
  refine ⟨by decide, by decide⟩

/-- Claim C3 (amended): a superseded cycle never writes its Fix Proposal
when the Cancellation Token is invalidated while the completion request is
still pending — the fetch rejects with AbortError and nothing further in the
cycle runs. (The signal is observed only by the network call, so a token
invalidated after the response has resolved does not prevent a stale
write.) -/
theorem cancel_during_fetch_never_writes (opts : EntryOptions) (env : CycleEnv)
    (h : env.abort = .duringFetch) :
    writesOf (runCycle opts env).1 = [] := by
  unfold runCycle
  split_ifs <;>
    simp_all [writesOf_testPhase_aborted, writesOf, jsTruthy]

/-- Witness for the C3 theorem at a concrete superseded cycle. -/
theorem cancel_during_fetch_never_writes_witness :
    writesOf (runCycle (EntryOptions.mk "jest" "d.txt" "sk-4" "src")
      (CycleEnv.mk "/repo" true "foo" (.fail "boom") .duringFetch (.content "bar")
        true true)).1 = [] :=
  cancel_during_fetch_never_writes _ _ rfl

/-- Claim C4: a cycle abandoned by cancellation (the signal received while
awaiting the network call, because a newer file-change event superseded it)
is abandoned silently and non-fatally: the watcher's change handler swallows
the AbortError, no error is logged, and the process keeps watching instead
of terminating. -/
theorem cancellation_is_silent_nonfatal (opts : EntryOptions) (env : CycleEnv) (s : String)
    (h1 : opts.testToRun ≠ "") (h2 : opts.fileToFix ≠ "") (h3 : opts.apiKey ≠ "")
    (h4 : env.lsOk = true) (h5 : env.test = .fail s)
    (h6 : jsIncludes s "command not found" = false)
    (h7 : env.abort = .duringFetch) :
    (runCycle opts env).2 = .thrown .abortError ∧
    (onChange opts env).2 = .watching ∧
    (onChange opts env).1.any Effect.isLogError = false := by
  have hmain : runCycle opts env =
      ([.execLs ("ls " ++ joinPath env.cwd opts.fileToFix),
        .readTarget (joinPath env.cwd opts.fileToFix), .logPreview,
        .execTest opts.testToRun, .logStderr s,
        .netCall opts.apiKey systemPrompt (userPrompt s env.fileContent)],
       .thrown .abortError) := by
    rw [runCycle_eq_testPhase opts env h1 h2 h3 h4]
    unfold testPhase
    rw [h5]
    dsimp only
    rw [if_neg (by simp [h6])]
    unfold fetchPhase
    rw [if_pos h7]
    simp
  refine ⟨by rw [hmain], ?_, ?_⟩ <;> unfold onChange <;> rw [hmain]
  · rfl
  · simp [Err.isAbortError, Effect.isLogError]

/-- Witness for the C4 theorem at a concrete cancelled cycle. -/
theorem cancellation_is_silent_nonfatal_witness :
    (onChange (EntryOptions.mk "jest" "e.txt" "sk-5" "src")
      (CycleEnv.mk "/repo" true "foo" (.fail "boom") .duringFetch (.content "bar")
        true false)).2 = .watching :=
  (cancellation_is_silent_nonfatal _ _ "boom"
    (by decide) (by decide) (by decide) rfl rfl (by decide) rfl).2.1

/-- Claim C5: when any of testToRun, fileToFix, or apiKey is missing, the
process exits with code 1 reporting the specific missing flag, and the
cycle's trace contains no target-file read, no network call, and no
subprocess at all. -/
theorem missing_flag_exits_without_read_or_network (opts : EntryOptions) (env : CycleEnv)
    (h : opts.testToRun = "" ∨ opts.fileToFix = "" ∨ opts.apiKey = "") :
    (runCycle opts env).2 = .exited 1 ∧
    (runCycle opts env).1.any Effect.isRead = false ∧
    (runCycle opts env).1.any Effect.isNetCall = false ∧
    (runCycle opts env).1.any Effect.isSubproc = false ∧
    ((opts.testToRun = "" ∧ (runCycle opts env).1 = [.logError "--testToRun is required"]) ∨
     (opts.fileToFix = "" ∧ (runCycle opts env).1 = [.logError "--fileToFix is required"]) ∨
     (opts.apiKey = "" ∧ (runCycle opts env).1 = [.logError "--apiKey is required"])) := by
  by_cases h1 : opts.testToRun = ""
  · simp [runCycle, h1, Effect.isRead, Effect.isNetCall, Effect.isSubproc]
  · by_cases h2 : opts.fileToFix = ""
    · simp [runCycle, h1, h2, Effect.isRead, Effect.isNetCall, Effect.isSubproc]
    · have h3 : opts.apiKey = "" := by tauto
      simp [runCycle, h1, h2, h3, Effect.isRead, Effect.isNetCall, Effect.isSubproc]

/-- Witness for the C5 theorem at a configuration missing testToRun. -/
theorem missing_flag_exits_without_read_or_network_witness :
    (runCycle (EntryOptions.mk "" "a.txt" "sk-1" "")
      (CycleEnv.mk "/home" true "foo" .pass .never .noMessage false false)).2
      = .exited 1 :=
  (missing_flag_exits_without_read_or_network _ _ (Or.inl rfl)).1

/-- Claim C6, counterexample to the claim as stated: with a missing target
file the cycle fails with the rejection of the `ls` existence-check
subprocess, not with the distinct file-does-not-exist error, and a
subprocess (the `ls` itself) has been executed by then. -/
theorem missing_file_error_is_ls_rejection :
    (runCycle (EntryOptions.mk "vitest run" "a.txt" "sk-1" "")
      (CycleEnv.mk "/home" false "" .pass .never .noMessage false false)).2
      = .thrown (.lsError "ls /home/a.txt") ∧
    (runCycle (EntryOptions.mk "vitest run" "a.txt" "sk-1" "")
      (CycleEnv.mk "/home" false "" .pass .never .noMessage false false)).2
      ≠ .thrown .fileDoesNotExist ∧
    ((runCycle (EntryOptions.mk "vitest run" "a.txt" "sk-1" "")
      (CycleEnv.mk "/home" false "" .pass .never .noMessage false false)).1.any
        Effect.isSubproc) = true := by
  refine ⟨by decide, by decide, by decide⟩

/-- Claim C6 (amended): when the target file does not exist at the resolved
path, the cycle fails before the test command subprocess is executed — its
whole trace is the single `ls` existence-check subprocess, whose rejection
is the error that propagates (rather than the distinct file-does-not-exist
error, which is unreachable), and no network call is made. -/
theorem missing_file_fails_before_test_subprocess (opts : EntryOptions) (env : CycleEnv)
    (h1 : opts.testToRun ≠ "") (h2 : opts.fileToFix ≠ "") (h3 : opts.apiKey ≠ "")
    (h4 : env.lsOk = false) :
    runCycle opts env =
      ([.execLs ("ls " ++ joinPath env.cwd opts.fileToFix)],
       .thrown (.lsError ("ls " ++ joinPath env.cwd opts.fileToFix))) ∧
    (∀ c, Effect.execTest c ∉ (runCycle opts env).1) ∧
    (runCycle opts env).1.any Effect.isNetCall = false := by
  have hmain : runCycle opts env =
      ([.execLs ("ls " ++ joinPath env.cwd opts.fileToFix)],
       .thrown (.lsError ("ls " ++ joinPath env.cwd opts.fileToFix))) := by
    unfold runCycle
    rw [if_neg h1, if_neg h2, if_neg h3, if_pos h4]
  exact ⟨hmain, by rw [hmain]; simp, by rw [hmain]; simp [Effect.isNetCall]⟩

/-- Witness for the C6 theorem at a concrete missing-file cycle. -/
theorem missing_file_fails_before_test_subprocess_witness :
    runCycle (EntryOptions.mk "jest" "gone.txt" "sk-6" "")
      (CycleEnv.mk "/repo" false "" .pass .never .noMessage false false) =
      ([Effect.execLs ("ls " ++ joinPath "/repo" "gone.txt")],
       .thrown (.lsError ("ls " ++ joinPath "/repo" "gone.txt"))) :=
  (missing_file_fails_before_test_subprocess _ _
    (by decide) (by decide) (by decide) rfl).1

/-- Claim C7: when the test subprocess exits with status zero, no network
call is made, nothing is written, the cycle logs success, and it ends by
exiting 0 or handing control to the watcher. -/
theorem passing_test_no_network_reports_success (opts : EntryOptions) (env : CycleEnv)
    (h1 : opts.testToRun ≠ "") (h2 : opts.fileToFix ≠ "") (h3 : opts.apiKey ≠ "")
    (h4 : env.lsOk = true) (h5 : env.test = .pass) :
    (runCycle opts env).1.any Effect.isNetCall = false ∧
    writesOf (runCycle opts env).1 = [] ∧
    Effect.logSuccess ∈ (runCycle opts env).1 ∧
    ((runCycle opts env).2 = .exited 0 ∨ (runCycle opts env).2 = .watching) := by
  rw [runCycle_eq_testPhase opts env h1 h2 h3 h4]
  unfold testPhase
  rw [h5]
  dsimp only
  unfold finishCycle
  by_cases hw : opts.watchFiles = ""
  · rw [if_pos hw]
    simp [Effect.isNetCall, writesOf]
  · rw [if_neg hw]
    simp [Effect.isNetCall, writesOf, writesOf_append]

/-- Witness for the C7 theorem at a concrete passing cycle. -/
theorem passing_test_no_network_reports_success_witness :
    Effect.logSuccess ∈ (runCycle (EntryOptions.mk "jest" "f.txt" "sk-7" "")
      (CycleEnv.mk "/repo" true "foo" .pass .never .noMessage false false)).1 :=
  (passing_test_no_network_reports_success _ _
    (by decide) (by decide) (by decide) rfl rfl).2.2.1

/-- Claim C8: when the test subprocess exits non-zero and its captured
stderr contains a "command not found" substring, the exec error is rethrown
rather than treated as a fixable test failure: no completion request is
constructed, and through the `entry` wrapper the process exits with
code 1. -/
theorem command_not_found_rethrown_no_completion (opts : EntryOptions) (env : CycleEnv)
    (s : String)
    (h1 : opts.testToRun ≠ "") (h2 : opts.fileToFix ≠ "") (h3 : opts.apiKey ≠ "")
    (h4 : env.lsOk = true) (h5 : env.test = .fail s)
    (h6 : jsIncludes s "command not found" = true) :
    (runCycle opts env).2 = .thrown (.testExecError s) ∧
    (runCycle opts env).1.any Effect.isNetCall = false ∧
    (entryRun opts env).2 = .exited 1 := by
  have hmain : runCycle opts env =
      ([.execLs ("ls " ++ joinPath env.cwd opts.fileToFix),
        .readTarget (joinPath env.cwd opts.fileToFix), .logPreview,
        .execTest opts.testToRun], .thrown (.testExecError s)) := by
    rw [runCycle_eq_testPhase opts env h1 h2 h3 h4]
    unfold testPhase
    rw [h5]
    dsimp only
    rw [if_pos h6]
    simp
  refine ⟨by rw [hmain], by rw [hmain]; simp [Effect.isNetCall], ?_⟩
  unfold entryRun
  rw [hmain]

/-- Witness for the C8 theorem at a concrete command-not-found cycle. -/
theorem command_not_found_rethrown_no_completion_witness :
    (runCycle (EntryOptions.mk "vitest run x" "g.txt" "sk-8" "")
      (CycleEnv.mk "/repo" true "foo" (.fail "sh: vitest: command not found")
        .never .noMessage false false)).2
      = .thrown (.testExecError "sh: vitest: command not found") :=
  (command_not_found_rethrown_no_completion _ _ _
    (by decide) (by decide) (by decide) rfl rfl (by decide)).1

/-- Claim C9: for every pair of original and proposed strings, the computed
character-level diff classifies each segment as common, added, or removed
(each segment nonempty); the common and removed segments in order
reconstruct the original, the common and added segments in order reconstruct
the replacement, and on identical inputs every segment is common. -/
theorem diff_classification_and_reconstruction (file proposed : String) :
    reconOld (diffChars file proposed) = file.toList ∧
    reconNew (diffChars file proposed) = proposed.toList ∧
    ((diffChars file proposed).all fun p =>
      (p.kind == .common || p.kind == .added || p.kind == .removed)
        && !p.value.isEmpty) = true ∧
    (file = proposed →
      ((diffChars file proposed).all fun p => p.kind == .common) = true) := by
  refine ⟨reconOld_diffCharsAux _ _, reconNew_diffCharsAux _ _, ?_, ?_⟩
  · rw [List.all_eq_true]
    intro p hp
    have hv := diffCharsAux_value_ne_nil file.toList proposed.toList p hp
    rcases hq : p.value with _ | ⟨ch, cs⟩
    · exact absurd hq hv
    · cases hk : p.kind <;> simp [hk, hq]
  · intro hfp
    subst hfp
    unfold diffChars
    rw [diffCharsAux_self]
    split_ifs <;> simp

/-- Witness for the C9 theorem: on identical strings every diff segment is
common. -/
theorem diff_classification_and_reconstruction_witness :
    ((diffChars "abc" "abc").all fun p => p.kind == .common) = true :=
  (diff_classification_and_reconstruction "abc" "abc").2.2.2 rfl

/-- Claim C10: the explicit file-does-not-exist error branch is unreachable
for every configuration and environment — the awaited exec result for the
`ls` existence check is a truthy object, so the `!fileExists` guard is never
taken — and with all required flags present a missing target file instead
surfaces as the rejection of the `ls` subprocess. -/
theorem file_not_exist_branch_unreachable (opts : EntryOptions) (env : CycleEnv) :
    (runCycle opts env).2 ≠ .thrown .fileDoesNotExist ∧
    (opts.testToRun ≠ "" → opts.fileToFix ≠ "" → opts.apiKey ≠ "" → env.lsOk = false →
      (runCycle opts env).2 = .thrown (.lsError ("ls " ++ joinPath env.cwd opts.fileToFix))) := by
  constructor
  · unfold runCycle
    split_ifs with h1 h2 h3 h4
    · simp
    · simp
    · simp
    · simp
    · have hc : ¬(jsTruthy (JsValue.object (joinPath env.cwd opts.fileToFix) "") = false) := by
        simp [jsTruthy]
      rw [if_neg hc]
      exact testPhase_snd_ne_fdne _ _ _ _ _
  · intro h1 h2 h3 h4
    unfold runCycle
    simp [h1, h2, h3, h4]

/-- Witness for the C10 theorem at a concrete missing-file cycle. -/
theorem file_not_exist_branch_unreachable_witness :
    (runCycle (EntryOptions.mk "jest" "nope.txt" "sk-9" "")
      (CycleEnv.mk "/cwd" false "" .pass .never .noMessage false false)).2
      = .thrown (.lsError ("ls " ++ joinPath "/cwd" "nope.txt")) :=
  (file_not_exist_branch_unreachable _ _).2 (by decide) (by decide) (by decide) rfl

end Gptdd
